import Mathlib

/-!
Formal model of the sentencing-calculator family
(`src/1111/cal.py`, `src/1111/sentencing_calculator.py`, `src/1112/cal.py`,
`src/1124/cal.py`).

Conventions of the shallow embedding:
* Python floats are modelled as rationals (exact arithmetic; binary-float
  representation error is idealised away), Python ints as integers.
* Python `round(x)` is round-half-to-even, `round(x, 2)` rounds `x * 100`
  half-to-even and divides by 100.
* Python `int(x)` truncates toward zero; `//` on ints is floor division.
* `key in text` on strings is substring containment.
* A Python dict literal is an association list in insertion order; dict
  lookup is first-key lookup; dict iteration follows the stored order.
* The human-readable `steps` strings are modelled as a list of `TraceStep`
  events carrying the same numbers in the same order (the exact rendered
  text is presentation only); the `formula` string of the 1111/1112 result
  dict is likewise presentation only and is not modelled.
-/

/-- Python `int(x)` for a float `x`: truncation toward zero. -/
def pyTrunc (q : ℚ) : ℤ := if 0 ≤ q then ⌊q⌋ else ⌈q⌉

/-- Python `round(x)` for a float `x`: round half to even. -/
def roundHalfEven (q : ℚ) : ℤ :=
  if q - (⌊q⌋ : ℚ) < 1/2 then ⌊q⌋
  else if 1/2 < q - (⌊q⌋ : ℚ) then ⌊q⌋ + 1
  else if ⌊q⌋ % 2 = 0 then ⌊q⌋ else ⌊q⌋ + 1

/-- Python `round(x, 2)`. -/
def round2 (q : ℚ) : ℚ := (roundHalfEven (q * 100) : ℚ) / 100

/-- Character-list version of Python string containment: prefix test. -/
def pyPref : List Char → List Char → Bool
  | [], _ => true
  | _ :: _, [] => false
  | a :: as, b :: bs => a == b && pyPref as bs

/-- Character-list version of Python string containment. -/
def pySubList (needle : List Char) : List Char → Bool
  | [] => needle.isEmpty
  | b :: bs => pyPref needle (b :: bs) || pySubList needle bs

/-- Python `needle in hay` for strings: substring containment. -/
def pySubstr (needle hay : String) : Bool := pySubList needle.toList hay.toList

/-- First-key association-list lookup, the model of Python dict lookup. -/
def alookup {β : Type} : List (String × β) → String → Option β
  | [], _ => none
  | p :: t, k => if p.1 == k then some p.2 else alookup t k

theorem roundHalfEven_ge_floor (q : ℚ) : ⌊q⌋ ≤ roundHalfEven q := by
  unfold roundHalfEven
  split
  · exact le_refl _
  · split
    · omega
    · split <;> omega

theorem roundHalfEven_le_floor_add_one (q : ℚ) : roundHalfEven q ≤ ⌊q⌋ + 1 := by
  unfold roundHalfEven
  split
  · omega
  · split
    · omega
    · split <;> omega

theorem round2_ge_one {q : ℚ} (h : 1 ≤ q) : 1 ≤ round2 q := by
  have h100 : (100 : ℚ) ≤ q * 100 := by linarith
  have hf : (100 : ℤ) ≤ ⌊q * 100⌋ := by
    exact_mod_cast Int.le_floor.mpr (by exact_mod_cast h100)
  have hr : (100 : ℤ) ≤ roundHalfEven (q * 100) :=
    le_trans hf (roundHalfEven_ge_floor _)
  unfold round2
  rw [le_div_iff (by norm_num : (0:ℚ) < 100)]
  have : (100 : ℚ) ≤ (roundHalfEven (q * 100) : ℚ) := by exact_mod_cast hr
  linarith

theorem alookup_mem {β : Type} :
    ∀ (l : List (String × β)) (k : String) (v : β),
      alookup l k = some v → (k, v) ∈ l := by
  intro l
  induction l with
  | nil => intro k v h; simp [alookup] at h
  | cons p t ih =>
    intro k v h
    unfold alookup at h
    by_cases hk : p.1 == k
    · rw [if_pos hk] at h
      have hkeq : p.1 = k := eq_of_beq hk
      have hveq : p.2 = v := by injection h
      have hp : (k, v) = p := by
        rw [← hkeq, ← hveq]
      rw [hp]
      exact List.mem_cons_self p t
    · rw [if_neg hk] at h
      right
      exact ih k v h

theorem alookup_mem_snd {β : Type} (l : List (String × β)) (k : String) (v : β)
    (h : alookup l k = some v) : v ∈ l.map Prod.snd := by
  have := alookup_mem l k v h
  exact List.mem_map.mpr ⟨(k, v), this, rfl⟩

theorem find?_first {α : Type} (p : α → Bool) :
    ∀ (pre : List α) (e : α) (post : List α),
      (∀ x ∈ pre, p x = false) → p e = true →
      (pre ++ e :: post).find? p = some e := by
  intro pre
  induction pre with
  | nil => intro e post _ he; simp [List.find?, he]
  | cons a t ih =>
    intro e post hpre he
    have ha : p a = false := hpre a (by simp)
    simp only [List.cons_append, List.find?, ha]
    exact ih e post (fun x hx => hpre x (by simp [hx])) he

/-- A per-category monetary-threshold triple (`large`, `huge`, `especially_huge`). -/
structure AmountStd where
  large : ℤ
  huge : ℤ
  especiallyHuge : ℤ
deriving DecidableEq

/-- The per-region entry of REGIONAL_STANDARDS: thresholds for theft and fraud. -/
structure RegionStandards where
  theft : AmountStd
  fraud : AmountStd
deriving DecidableEq

/-- The crime key chosen by the calculators ("theft" or "fraud"). -/
inductive CrimeKey
  | theft
  | fraud
deriving DecidableEq

def RegionStandards.get : RegionStandards → CrimeKey → AmountStd
  | s, .theft => s.theft
  | s, .fraud => s.fraud

/-- The "default" entry of both REGIONAL_STANDARDS tables. -/
def DEFAULT_STD : RegionStandards :=
  ⟨⟨1000, 30000, 300000⟩, ⟨3000, 30000, 500000⟩⟩

/-- REGIONAL_STANDARDS of `src/1111/sentencing_calculator.py` (insertion order);
the pseudo-key "cities_to_provinces" is kept separately as `CITIES_TO_PROVINCES`. -/
def REGIONAL_STANDARDS_1111 : List (String × RegionStandards) :=
  [("default", DEFAULT_STD),
   ("北京", ⟨⟨2000, 60000, 400000⟩, ⟨5000, 100000, 500000⟩⟩),
   ("上海", ⟨⟨6000, 100000, 500000⟩, ⟨6000, 100000, 500000⟩⟩),
   ("广东", ⟨⟨3000, 100000, 500000⟩, ⟨6000, 100000, 500000⟩⟩),
   ("惠州", ⟨⟨2000, 60000, 400000⟩, ⟨4000, 60000, 500000⟩⟩),
   ("江门", ⟨⟨2000, 60000, 400000⟩, ⟨4000, 60000, 500000⟩⟩),
   ("汕头", ⟨⟨2000, 60000, 400000⟩, ⟨4000, 60000, 500000⟩⟩),
   ("江苏", ⟨⟨2000, 50000, 400000⟩, ⟨6000, 100000, 500000⟩⟩),
   ("浙江", ⟨⟨3000, 80000, 400000⟩, ⟨6000, 100000, 500000⟩⟩),
   ("山东", ⟨⟨2000, 60000, 400000⟩, ⟨6000, 80000, 500000⟩⟩),
   ("天津", ⟨⟨1000, 30000, 300000⟩, ⟨5000, 50000, 500000⟩⟩),
   ("重庆", ⟨⟨2000, 60000, 400000⟩, ⟨5000, 70000, 500000⟩⟩),
   ("贵州", ⟨⟨1000, 30000, 300000⟩, ⟨3000, 50000, 500000⟩⟩),
   ("河南", ⟨⟨2000, 50000, 400000⟩, ⟨5000, 50000, 500000⟩⟩),
   ("河北", ⟨⟨2000, 60000, 400000⟩, ⟨5000, 60000, 500000⟩⟩),
   ("辽宁", ⟨⟨2000, 70000, 400000⟩, ⟨6000, 60000, 500000⟩⟩),
   ("四川", ⟨⟨1600, 50000, 300000⟩, ⟨5000, 50000, 500000⟩⟩),
   ("安徽", ⟨⟨2000, 50000, 400000⟩, ⟨5000, 50000, 500000⟩⟩),
   ("陕西", ⟨⟨1000, 30000, 300000⟩, ⟨5000, 50000, 500000⟩⟩),
   ("山西", ⟨⟨1000, 30000, 300000⟩, ⟨5000, 80000, 500000⟩⟩),
   ("湖南", ⟨⟨2000, 50000, 400000⟩, ⟨5000, 50000, 500000⟩⟩),
   ("湖北", ⟨⟨2000, 50000, 500000⟩, ⟨5000, 50000, 500000⟩⟩),
   ("福建", ⟨⟨3000, 60000, 300000⟩, ⟨5000, 100000, 500000⟩⟩),
   ("云南", ⟨⟨1500, 40000, 350000⟩, ⟨5000, 50000, 500000⟩⟩),
   ("广西", ⟨⟨1500, 40000, 400000⟩, ⟨5000, 50000, 500000⟩⟩),
   ("江西", ⟨⟨1500, 50000, 400000⟩, ⟨5000, 50000, 500000⟩⟩),
   ("吉林", ⟨⟨2000, 30000, 300000⟩, ⟨5000, 50000, 500000⟩⟩),
   ("黑龙江", ⟨⟨1500, 50000, 350000⟩, ⟨5000, 50000, 500000⟩⟩)]

/-- REGIONAL_STANDARDS of `src/1124/cal.py`: the 1111 table extended with
seven further provinces (again excluding the "cities_to_provinces" pseudo-key). -/
def REGIONAL_STANDARDS_1124 : List (String × RegionStandards) :=
  REGIONAL_STANDARDS_1111 ++
  [("海南", ⟨⟨1500, 15000, 70000⟩, ⟨5000, 50000, 500000⟩⟩),
   ("甘肃", ⟨⟨2000, 60000, 400000⟩, ⟨3000, 30000, 500000⟩⟩),
   ("青海", ⟨⟨2000, 30000, 300000⟩, ⟨3000, 30000, 500000⟩⟩),
   ("内蒙古", ⟨⟨1600, 30000, 300000⟩, ⟨5000, 50000, 500000⟩⟩),
   ("宁夏", ⟨⟨1500, 30000, 300000⟩, ⟨3000, 30000, 500000⟩⟩),
   ("西藏", ⟨⟨2000, 50000, 400000⟩, ⟨6000, 50000, 500000⟩⟩),
   ("新疆", ⟨⟨1000, 30000, 300000⟩, ⟨3000, 50000, 500000⟩⟩)]

/-- The "cities_to_provinces" synonym table (identical in both variants). -/
def CITIES_TO_PROVINCES : List (String × String) :=
  [("江门", "广东"), ("深圳", "广东"), ("广州", "广东"), ("珠海", "广东"),
   ("佛山", "广东"), ("东莞", "广东"), ("中山", "广东"),
   ("杭州", "浙江"), ("宁波", "浙江"), ("温州", "浙江"), ("嘉兴", "浙江"),
   ("绍兴", "浙江"), ("台州", "浙江"), ("义乌", "浙江"),
   ("南京", "江苏"), ("苏州", "江苏"), ("无锡", "江苏"), ("常州", "江苏"),
   ("徐州", "江苏"),
   ("济南", "山东"), ("青岛", "山东"), ("烟台", "山东"), ("潍坊", "山东"),
   ("大连", "辽宁"), ("沈阳", "辽宁"),
   ("哈尔滨", "黑龙江"), ("长春", "吉林"), ("成都", "四川"), ("西安", "陕西"),
   ("武汉", "湖北"), ("长沙", "湖南"), ("福州", "福建"), ("厦门", "福建"),
   ("贵阳", "贵州"), ("昆明", "云南"), ("南宁", "广西"), ("石家庄", "河北"),
   ("太原", "山西"), ("南昌", "江西"), ("合肥", "安徽"), ("郑州", "河南"),
   ("海口", "海南"), ("乌鲁木齐", "新疆"), ("呼和浩特", "内蒙古"),
   ("银川", "宁夏"), ("西宁", "青海"), ("拉萨", "西藏"), ("兰州", "甘肃")]

/-- The crime-key choice of `get_regional_standard` (sentencing_calculator.py,
line 206): substring tests on the crime-type string, defaulting to theft. -/
def crimeKey (crime_type : String) : CrimeKey :=
  if pySubstr "盗窃" crime_type then .theft
  else if pySubstr "诈骗" crime_type then .fraud
  else .theft

/-- Region resolution of `get_regional_standard` (sentencing_calculator.py,
lines 208-224): exact key match, then a scan for a table key occurring as a
substring of the region (skipping "default"), then the city-synonym table
(guarded: the parent province must itself be a table key), then "default".
The Python loop also visits the "cities_to_provinces" pseudo-key, which can
never match a region name unless the input literally contains that English
string (in which case the Python code would itself raise a KeyError), so it
is omitted from the scanned list. -/
def regionalEntry1111 (region : String) : RegionStandards :=
  match alookup REGIONAL_STANDARDS_1111 region with
  | some s => s
  | none =>
    match REGIONAL_STANDARDS_1111.find?
        (fun p => pySubstr p.1 region && !(p.1 == "default")) with
    | some p => p.2
    | none =>
      match alookup CITIES_TO_PROVINCES region with
      | some prov =>
        match alookup REGIONAL_STANDARDS_1111 prov with
        | some s => s
        | none => DEFAULT_STD
      | none => DEFAULT_STD

/-- `get_regional_standard` of sentencing_calculator.py. -/
def get_regional_standard (region crime_type : String) : AmountStd :=
  (regionalEntry1111 region).get (crimeKey crime_type)

/-- Region resolution inlined in `calculate_base_sentence` of `src/1124/cal.py`
(lines 287-293): exact key match, then the city-synonym table (there
unguarded: Python indexes REGIONAL_STANDARDS[province] directly, which for
this table never fails, see `cities_resolve_1124`), then "default". -/
def regionalEntry1124 (region : String) : RegionStandards :=
  match alookup REGIONAL_STANDARDS_1124 region with
  | some s => s
  | none =>
    match alookup CITIES_TO_PROVINCES region with
    | some prov => (alookup REGIONAL_STANDARDS_1124 prov).getD DEFAULT_STD
    | none => DEFAULT_STD

/-- Modelled from the spec: "resolution order is: exact jurisdiction match →
synonym-to-jurisdiction match → `default`".  Written from the spec's words,
to be compared with the resolvers read off the source. -/
def claimResolve (table : List (String × RegionStandards))
    (cities : List (String × String)) (region : String) : RegionStandards :=
  match alookup table region with
  | some s => s
  | none =>
    match alookup cities region with
    | some prov => (alookup table prov).getD DEFAULT_STD
    | none => DEFAULT_STD

/-- Every city in the synonym table maps to a province present in the 1124
table, so the unguarded Python indexing there cannot fail. -/
theorem cities_resolve_1124 :
    ∀ p ∈ CITIES_TO_PROVINCES, (alookup REGIONAL_STANDARDS_1124 p.2).isSome := by
  decide

/-- Python truthiness test `amount and amount < bound` of `src/1111/cal.py`:
`None` and `0` are falsy, every other number is truthy. -/
def truthyLt (amount : Option ℚ) (bound : ℚ) : Bool :=
  match amount with
  | none => false
  | some a => !(a == 0) && decide (a < bound)

/-- `calculate_base_sentence` of `src/1111/cal.py` (lines 14-59). -/
def base1111cal (crime_type : String) (amount : Option ℚ)
    (injury_level : Option String) : ℤ :=
  if crime_type == "盗窃罪" then
    if truthyLt amount 3000 then 6
    else if truthyLt amount 30000 then 12
    else if truthyLt amount 300000 then 48
    else 120
  else if crime_type == "诈骗罪" then
    if truthyLt amount 3000 then 0
    else if truthyLt amount 30000 then 12
    else if truthyLt amount 500000 then 48
    else 120
  else if crime_type == "故意伤害罪" then
    if injury_level == some "轻微伤" then 0
    else if injury_level == some "轻伤" then 12
    else if injury_level == some "重伤" then 48
    else if injury_level == some "致人死亡" then 120
    else 12
  else 12

/-- The amount level of `determine_amount_level` (sentencing_calculator.py). -/
inductive AmountLevel
  | small
  | large
  | huge
  | espHuge
deriving DecidableEq

/-- `determine_amount_level` of sentencing_calculator.py (lines 227-246). -/
def determine_amount_level (amount : ℚ) (s : AmountStd) : AmountLevel :=
  if (s.especiallyHuge : ℚ) ≤ amount then .espHuge
  else if (s.huge : ℚ) ≤ amount then .huge
  else if (s.large : ℚ) ≤ amount then .large
  else .small

/-- `calculate_base_sentence` of `src/1111/sentencing_calculator.py`
(lines 249-307).  The amount level is computed only when an amount is given
and the crime type contains 盗窃 or 诈骗. -/
def base1111sc (crime_type : String) (amount : Option ℚ)
    (injury_level : Option String) (region : String) : ℤ :=
  let amount_level : Option AmountLevel :=
    match amount with
    | some a =>
      if pySubstr "盗窃" crime_type || pySubstr "诈骗" crime_type then
        some (determine_amount_level a (get_regional_standard region crime_type))
      else none
    | none => none
  if pySubstr "盗窃" crime_type then
    if amount_level == some .large then 6
    else if amount_level == some .huge then 24
    else if amount_level == some .espHuge then 48
    else if injury_level == some "轻伤" then 18
    else if injury_level == some "重伤" then 60
    else 12
  else if pySubstr "诈骗" crime_type then
    if amount_level == some .large then 6
    else if amount_level == some .huge then 24
    else if amount_level == some .espHuge then 48
    else if injury_level == some "轻伤" then 18
    else if injury_level == some "重伤" then 60
    else 12
  else if pySubstr "故意伤害" crime_type then
    if injury_level == some "轻伤" then 18
    else if injury_level == some "重伤" then 60
    else 120
  else 12

/-- `calculate_base_sentence` of `src/1124/cal.py` (lines 279-390):
bracket floor plus progressive increment, with per-bracket `min` caps, and
for theft an uncapped surcharge of one month per two thefts beyond three. -/
def base1124 (crime_type : String) (amount : Option ℚ)
    (injury_level : Option String) (region : String)
    (theft_count : Option ℤ) : ℤ :=
  let standards := regionalEntry1124 region
  if crime_type == "盗窃罪" then
    let ts := standards.theft
    let base : ℤ :=
      match amount with
      | none => 12
      | some a =>
        if a < (ts.large : ℚ) then 6
        else if a < (ts.huge : ℚ) then
          min (6 + pyTrunc ((a - (ts.large : ℚ)) / 2000) * 1) 36
        else if a < (ts.especiallyHuge : ℚ) then
          min (pyTrunc ((36 : ℚ) + (pyTrunc ((a - (ts.huge : ℚ)) / 3000) : ℚ) * (3/2))) 72
        else
          min (pyTrunc ((120 : ℚ) + (pyTrunc ((a - (ts.especiallyHuge : ℚ)) / 50000) : ℚ) * 1)) 180
    match theft_count with
    | some c => if 3 < c then base + pyTrunc (((c : ℚ) - 3) / 2) else base
    | none => base
  else if crime_type == "诈骗罪" then
    let fs := standards.fraud
    match amount with
    | none => 12
    | some a =>
      if a < (fs.large : ℚ) then 6
      else if a < (fs.huge : ℚ) then
        min (6 + pyTrunc ((a - (fs.large : ℚ)) / 1000) * 2) 36
      else if a < (fs.especiallyHuge : ℚ) then
        min (pyTrunc ((36 : ℚ) + (pyTrunc ((a - (fs.huge : ℚ)) / 10000) : ℚ) * (3/2))) 120
      else
        min (pyTrunc ((120 : ℚ) + (pyTrunc ((a - (fs.especiallyHuge : ℚ)) / 100000) : ℚ) * 1)) 180
  else if crime_type == "职务侵占罪" then
    match amount with
    | none => 12
    | some a =>
      if a < 60000 then 6
      else if a < 1000000 then
        min (6 + pyTrunc ((a - 60000) / 940000 * 30)) 36
      else if a < 15000000 then
        min (pyTrunc ((36 : ℚ) + (pyTrunc ((a - 1000000) / 14000000 * 84) : ℚ))) 120
      else
        min (pyTrunc ((120 : ℚ) + (pyTrunc ((a - 15000000) / 1000000) : ℚ))) 180
  else if crime_type == "故意伤害罪" then
    if injury_level == some "轻伤一级" then 18
    else if injury_level == some "轻伤二级" then 12
    else if injury_level == some "重伤一级" then 72
    else if injury_level == some "重伤二级" then 48
    else if injury_level == some "致人死亡" then 120
    else if injury_level == some "死亡" then 120
    else 12
  else 12

/-- A `{name, ratio}` sentencing factor. -/
structure Factor where
  name : String
  ratio : ℚ
deriving DecidableEq

/-- The layer-1 running product `layer1_multiplier` (initialised to 1.0). -/
def prodRatios (l : List Factor) : ℚ := l.foldl (fun acc f => acc * f.ratio) 1

/-- The layer-2 running sum `layer2_adjustment` of `ratio - 1` (initialised to 0.0). -/
def sumAdjust (l : List Factor) : ℚ := l.foldl (fun acc f => acc + (f.ratio - 1)) 0

/-- One entry of the `calculation_steps` trace, as an event carrying the
numbers that the Python f-string renders. -/
inductive TraceStep
  | baseStep (months : ℤ)
  | layer1Factor (name : String) (ratio : ℚ)
  | layer1Result (months : ℚ)
  | layer2Factor (name : String) (adjustment : ℚ)
  | layer2Result (months : ℚ)
  | clampBelowOne (raw : ℚ)
  | clampToOne
deriving DecidableEq

/-- Result dict of `calculate_layered_sentence`. -/
structure LayeredResult where
  final_months : ℚ
  steps : List TraceStep
deriving DecidableEq

/-- `calculate_layered_sentence` of `src/1111/sentencing_calculator.py`
(lines 326-379), identical in `src/1111/cal.py` and `src/1112/cal.py`:
layer 1 multiplies, layer 2 sums `ratio - 1`, and the final value is rounded
to two decimals.  No floor is applied. -/
def calculate_layered_sentence (base_months : ℤ)
    (layer1_factors layer2_factors : List Factor) : LayeredResult :=
  let m1 := prodRatios layer1_factors
  let current : ℚ :=
    if layer1_factors.isEmpty then (base_months : ℚ) else (base_months : ℚ) * m1
  let adj := sumAdjust layer2_factors
  let final : ℚ := if layer2_factors.isEmpty then current else current * (1 + adj)
  { final_months := round2 final
    steps := TraceStep.baseStep base_months ::
      ((layer1_factors.map fun f => TraceStep.layer1Factor f.name f.ratio) ++
       (if layer1_factors.isEmpty then [] else [TraceStep.layer1Result current]) ++
       (layer2_factors.map fun f => TraceStep.layer2Factor f.name (f.ratio - 1)) ++
       (if layer2_factors.isEmpty then [] else [TraceStep.layer2Result final])) }

/-- Result dict of `calculate_layered_sentence_with_constraints`. -/
structure ConstrainedResult where
  final_months : ℚ
  base_months : ℤ
  steps : List TraceStep
  constrained : Bool
deriving DecidableEq

/-- `calculate_layered_sentence_with_constraints` of `src/1124/cal.py`
(lines 393-453).  `crime_type`, `amount`, `has_statutory_mitigation` and
`injury_level` are accepted but unused: the source removed all statutory
constraint checks and keeps only the one-month floor (lines 439-444). -/
def calculate_layered_sentence_with_constraints (base_months : ℤ)
    (crime_type : String) (amount : ℚ)
    (layer1_factors layer2_factors : List Factor)
    (has_statutory_mitigation : Bool) (injury_level : Option String) :
    ConstrainedResult :=
  let m1 := prodRatios layer1_factors
  let current : ℚ :=
    if layer1_factors.isEmpty then (base_months : ℚ) else (base_months : ℚ) * m1
  let adj := sumAdjust layer2_factors
  let temp0 : ℚ := if layer2_factors.isEmpty then current else current * (1 + adj)
  let temp : ℚ := if temp0 < 1 then 1 else temp0
  { final_months := round2 temp
    base_months := base_months
    steps := TraceStep.baseStep base_months ::
      ((layer1_factors.map fun f => TraceStep.layer1Factor f.name f.ratio) ++
       (if layer1_factors.isEmpty then [] else [TraceStep.layer1Result current]) ++
       (layer2_factors.map fun f => TraceStep.layer2Factor f.name (f.ratio - 1)) ++
       (if layer2_factors.isEmpty then [] else [TraceStep.layer2Result temp0]) ++
       (if temp0 < 1 then [TraceStep.clampBelowOne temp0, TraceStep.clampToOne] else []))
    constrained := decide (temp ≠ current * (1 + adj)) }

/-- `months_to_range` of `src/1111/sentencing_calculator.py` (lines 398-413),
identical in `src/1111/cal.py`; `src/1112/cal.py` differs only in the default
width.  The half width is the integer floor division `width // 2`. -/
def months_to_range (center_months : ℚ) (width : ℤ) : List ℤ :=
  let half_width : ℤ := Int.fdiv width 2
  [max 1 (roundHalfEven (center_months - (half_width : ℚ))),
   max 1 (roundHalfEven (center_months + (half_width : ℚ)))]

/-- `months_to_range` of `src/1124/cal.py` (lines 586-607): the supplied
width is immediately overwritten by `max(6, min(12, center * 0.15))`
(line 602), so the parameter is ignored. -/
def months_to_range_1124 (center_months : ℚ) (width : ℤ) : List ℤ :=
  let w : ℚ := max 6 (min 12 (center_months * (15/100)))
  let half_width : ℚ := w / 2
  [max 1 (roundHalfEven (center_months - half_width)),
   max 1 (roundHalfEven (center_months + half_width))]

/-- `validate_legal_range`, identical in all variants. -/
def validate_legal_range (months min_legal max_legal : ℤ) : ℤ :=
  if months < min_legal then min_legal
  else if max_legal < months then max_legal
  else months

/-- LAYER1_FACTORS of `src/1112/cal.py` (lines 14-28) as the ordered list of
(canonical phrase, ratio); each dict value carries its own key as `name`. -/
def LAYER1_FACTORS : List (String × ℚ) :=
  [("未成年人（16-18岁）", 7/10),
   ("未成年人（14-16岁）", 1/2),
   ("从犯（作用较小）", 3/5),
   ("从犯（一般）", 7/10),
   ("胁从犯", 2/5),
   ("犯罪预备", 2/5),
   ("犯罪中止（自动有效）", 3/10),
   ("犯罪中止（一般）", 2/5),
   ("犯罪未遂（意志以外）", 7/10),
   ("犯罪未遂（能力不足）", 3/5),
   ("限制刑事责任能力", 3/5),
   ("又聋又哑/盲人", 7/10),
   ("防卫过当", 1/2)]

/-- LAYER2_FACTORS of `src/1112/cal.py` (lines 31-49): ordered
(canonical phrase, adjustment percentage). -/
def LAYER2_FACTORS : List (String × ℤ) :=
  [("累犯", 25),
   ("自首（主动投案）", -35),
   ("自首（抓获后）", -25),
   ("坦白", -15),
   ("认罪认罚（具结书）", -20),
   ("认罪认罚（口头）", -15),
   ("一般立功", -15),
   ("重大立功", -30),
   ("退赃退赔（全部）", -25),
   ("退赃退赔（部分）", -15),
   ("取得谅解", -20),
   ("刑事和解", -35),
   ("有前科（同类）", 20),
   ("有前科（其他）", 15),
   ("多次犯罪（3次+）", 25),
   ("多次犯罪（2次）", 15),
   ("造成严重后果", 35)]

/-- The `match_reason` field, as an event (the Python code renders it as
"匹配到'key'" or "未匹配到具体情节，使用默认值"). -/
inductive MatchReason
  | matchedKey (key : String)
  | noMatch
deriving DecidableEq

/-- Result of `match_layer1_factor`. -/
structure Layer1Match where
  name : String
  ratio : ℚ
  match_reason : MatchReason
deriving DecidableEq

/-- Result of `match_layer2_factor`. -/
structure Layer2Match where
  name : String
  adjustment_pct : ℤ
  match_reason : MatchReason
deriving DecidableEq

/-- `match_layer1_factor` of `src/1112/cal.py` (lines 52-70): first table
entry whose key occurs in the description; neutral ratio 1.0 otherwise. -/
def match_layer1_factor (description : String) : Layer1Match :=
  match LAYER1_FACTORS.find? (fun p => pySubstr p.1 description) with
  | some p => ⟨p.1, p.2, .matchedKey p.1⟩
  | none => ⟨"一般情节", 1, .noMatch⟩

/-- `match_layer2_factor` of `src/1112/cal.py` (lines 73-91): first table
entry whose key occurs in the description; neutral adjustment 0 otherwise. -/
def match_layer2_factor (description : String) : Layer2Match :=
  match LAYER2_FACTORS.find? (fun p => pySubstr p.1 description) with
  | some p => ⟨p.1, p.2, .matchedKey p.1⟩
  | none => ⟨"一般情节", 0, .noMatch⟩

/-- Well-formedness of a threshold triple: positive and strictly ascending. -/
def AmountStd.ordered (s : AmountStd) : Prop :=
  0 < s.large ∧ s.large < s.huge ∧ s.huge < s.especiallyHuge

instance (s : AmountStd) : Decidable s.ordered := by
  unfold AmountStd.ordered
  infer_instance

/-- Well-formedness of a region entry. -/
def RegionStandards.ordered (r : RegionStandards) : Prop :=
  r.theft.ordered ∧ r.fraud.ordered

instance (r : RegionStandards) : Decidable r.ordered := by
  unfold RegionStandards.ordered
  infer_instance

theorem all_1111_ordered :
    ∀ s ∈ REGIONAL_STANDARDS_1111.map Prod.snd, s.ordered := by decide

theorem all_1124_ordered :
    ∀ s ∈ REGIONAL_STANDARDS_1124.map Prod.snd, s.ordered := by decide

theorem entry1124_mem (region : String) :
    regionalEntry1124 region ∈ REGIONAL_STANDARDS_1124.map Prod.snd := by
  unfold regionalEntry1124
  split
  · rename_i s h1
    exact alookup_mem_snd _ _ _ h1
  · split
    · rename_i prov h2
      cases h3 : alookup REGIONAL_STANDARDS_1124 prov with
      | some s =>
        simp only [h3, Option.getD_some]
        exact alookup_mem_snd _ _ _ h3
      | none =>
        simp only [h3, Option.getD_none]
        decide
    · decide

theorem entry1124_ordered (region : String) :
    (regionalEntry1124 region).ordered :=
  all_1124_ordered _ (entry1124_mem region)

theorem entry1111_mem (region : String) :
    regionalEntry1111 region ∈ REGIONAL_STANDARDS_1111.map Prod.snd := by
  unfold regionalEntry1111
  split
  · rename_i s h1
    exact alookup_mem_snd _ _ _ h1
  · split
    · rename_i p h2
      exact List.mem_map.mpr ⟨p, List.mem_of_find?_eq_some h2, rfl⟩
    · split
      · rename_i prov h3
        split
        · rename_i s h4
          exact alookup_mem_snd _ _ _ h4
        · decide
      · decide

theorem entry1111_ordered (region : String) :
    (regionalEntry1111 region).ordered :=
  all_1111_ordered _ (entry1111_mem region)

theorem get_regional_standard_ordered (region crime_type : String) :
    (get_regional_standard region crime_type).ordered := by
  unfold get_regional_standard
  have h := entry1111_ordered region
  cases crimeKey crime_type with
  | theft => exact h.1
  | fraud => exact h.2

theorem layered_current_eq (B : ℤ) (l1 : List Factor) :
    (if l1.isEmpty then (B:ℚ) else (B:ℚ) * prodRatios l1)
      = (B:ℚ) * prodRatios l1 := by
  cases l1 with
  | nil => simp [prodRatios]
  | cons a t => simp

theorem layered_final_eq (c : ℚ) (l2 : List Factor) :
    (if l2.isEmpty then c else c * (1 + sumAdjust l2))
      = c * (1 + sumAdjust l2) := by
  cases l2 with
  | nil => simp [sumAdjust]
  | cons a t => simp

theorem layered_final_months (B : ℤ) (l1 l2 : List Factor) :
    (calculate_layered_sentence B l1 l2).final_months
      = round2 ((B:ℚ) * prodRatios l1 * (1 + sumAdjust l2)) := by
  unfold calculate_layered_sentence
  dsimp only
  rw [layered_final_eq, layered_current_eq]

theorem constrained_temp0_eq (B : ℤ) (l1 l2 : List Factor) :
    (if l2.isEmpty
       then (if l1.isEmpty then (B:ℚ) else (B:ℚ) * prodRatios l1)
       else (if l1.isEmpty then (B:ℚ) else (B:ℚ) * prodRatios l1) * (1 + sumAdjust l2))
      = (B:ℚ) * prodRatios l1 * (1 + sumAdjust l2) := by
  rw [layered_final_eq, layered_current_eq]

theorem round2_one : round2 1 = 1 := by
  norm_num [round2, roundHalfEven]

theorem constrained_final_of_ge (B : ℤ) (ct : String) (amt : ℚ)
    (l1 l2 : List Factor) (hm : Bool) (il : Option String)
    (h : 1 ≤ (B:ℚ) * prodRatios l1 * (1 + sumAdjust l2)) :
    (calculate_layered_sentence_with_constraints B ct amt l1 l2 hm il).final_months
      = round2 ((B:ℚ) * prodRatios l1 * (1 + sumAdjust l2)) := by
  unfold calculate_layered_sentence_with_constraints
  dsimp only
  rw [constrained_temp0_eq, if_neg (not_lt.mpr h)]

theorem constrained_final_of_lt (B : ℤ) (ct : String) (amt : ℚ)
    (l1 l2 : List Factor) (hm : Bool) (il : Option String)
    (h : (B:ℚ) * prodRatios l1 * (1 + sumAdjust l2) < 1) :
    (calculate_layered_sentence_with_constraints B ct amt l1 l2 hm il).final_months = 1
    ∧ TraceStep.clampBelowOne ((B:ℚ) * prodRatios l1 * (1 + sumAdjust l2))
        ∈ (calculate_layered_sentence_with_constraints B ct amt l1 l2 hm il).steps := by
  unfold calculate_layered_sentence_with_constraints
  dsimp only
  rw [constrained_temp0_eq, if_pos h, if_pos h]
  refine ⟨round2_one, ?_⟩
  simp [List.mem_append]

/-- C1 (corrected): the unconstrained engine returns exactly
`round(B × Π(ratio) × (1 + Σ(ratio − 1)), 2)` for every input, and the
constrained 1124 engine agrees whenever that value is at least 1 (below 1 it
clamps, see the counterexample); in Scenario B the Tier-1 subtotal is 40,
the Tier-2 net adjustment is +0.2, and final_months = 48. -/
theorem layered_formula_and_scenarioB :
    (∀ (B : ℤ) (l1 l2 : List Factor),
      (calculate_layered_sentence B l1 l2).final_months
        = round2 ((B:ℚ) * prodRatios l1 * (1 + sumAdjust l2)))
    ∧ (∀ (B : ℤ) (ct : String) (amt : ℚ) (l1 l2 : List Factor) (hm : Bool)
        (il : Option String),
        1 ≤ (B:ℚ) * prodRatios l1 * (1 + sumAdjust l2) →
        (calculate_layered_sentence_with_constraints B ct amt l1 l2 hm il).final_months
          = round2 ((B:ℚ) * prodRatios l1 * (1 + sumAdjust l2)))
    ∧ (100:ℚ) * prodRatios [⟨"未成年人", 1/2⟩, ⟨"从犯", 4/5⟩] = 40
    ∧ sumAdjust [⟨"累犯", 13/10⟩, ⟨"自首", 9/10⟩] = 1/5
    ∧ (calculate_layered_sentence 100 [⟨"未成年人", 1/2⟩, ⟨"从犯", 4/5⟩]
        [⟨"累犯", 13/10⟩, ⟨"自首", 9/10⟩]).final_months = 48 := by
  refine ⟨layered_final_months, constrained_final_of_ge, ?_, ?_, ?_⟩
  · norm_num [prodRatios, List.foldl]
  · norm_num [sumAdjust, List.foldl]
  · rw [layered_final_months]
    norm_num [prodRatios, sumAdjust, List.foldl, round2, roundHalfEven]

/-- C1 witness: the constrained-engine conjunct applied at Scenario B. -/
theorem layered_formula_witness :
    1 ≤ (100:ℚ) * prodRatios [⟨"未成年人", 1/2⟩, ⟨"从犯", 4/5⟩]
        * (1 + sumAdjust [⟨"累犯", 13/10⟩, ⟨"自首", 9/10⟩])
    ∧ (calculate_layered_sentence_with_constraints 100 "盗窃罪" 50000
        [⟨"未成年人", 1/2⟩, ⟨"从犯", 4/5⟩] [⟨"累犯", 13/10⟩, ⟨"自首", 9/10⟩]
        false none).final_months
      = round2 ((100:ℚ) * prodRatios [⟨"未成年人", 1/2⟩, ⟨"从犯", 4/5⟩]
        * (1 + sumAdjust [⟨"累犯", 13/10⟩, ⟨"自首", 9/10⟩])) :=
  ⟨by norm_num [prodRatios, sumAdjust, List.foldl],
   layered_formula_and_scenarioB.2.1 100 "盗窃罪" 50000
     [⟨"未成年人", 1/2⟩, ⟨"从犯", 4/5⟩] [⟨"累犯", 13/10⟩, ⟨"自首", 9/10⟩]
     false none (by norm_num [prodRatios, sumAdjust, List.foldl])⟩

/-- C1 counterexample: the constrained 1124 engine does not return the
claimed formula on every input — at base 1 with the single Tier-1 factor
从犯 (ratio 0.5) the formula gives 0.5 but the engine clamps to 1. -/
theorem constrained_clamps_formula_cex :
    (calculate_layered_sentence_with_constraints 1 "盗窃罪" 0
      [⟨"从犯", 1/2⟩] [] false none).final_months = 1
    ∧ round2 ((1:ℚ) * prodRatios [⟨"从犯", 1/2⟩] * (1 + sumAdjust [])) = 1/2
    ∧ (calculate_layered_sentence_with_constraints 1 "盗窃罪" 0
        [⟨"从犯", 1/2⟩] [] false none).final_months
      ≠ round2 ((1:ℚ) * prodRatios [⟨"从犯", 1/2⟩] * (1 + sumAdjust [])) := by
  have hlt : (1:ℚ) * prodRatios [⟨"从犯", 1/2⟩] * (1 + sumAdjust []) < 1 := by
    norm_num [prodRatios, sumAdjust, List.foldl]
  have h1 := (constrained_final_of_lt 1 "盗窃罪" 0 [⟨"从犯", 1/2⟩] [] false none hlt).1
  have h2 : round2 ((1:ℚ) * prodRatios [⟨"从犯", 1/2⟩] * (1 + sumAdjust [])) = 1/2 := by
    norm_num [prodRatios, sumAdjust, List.foldl, round2, roundHalfEven]
  exact ⟨h1, h2, by rw [h1, h2]; norm_num⟩

/-- C2 (corrected): the constrained 1124 engine satisfies the floor
invariant — `final_months ≥ 1` on every input, with a clamp trace entry
whenever the raw two-tier value is below 1; the 1111/1112
`calculate_layered_sentence` applies no floor (see the counterexample). -/
theorem constrained_floor_invariant :
    ∀ (B : ℤ) (ct : String) (amt : ℚ) (l1 l2 : List Factor) (hm : Bool)
      (il : Option String),
      1 ≤ (calculate_layered_sentence_with_constraints B ct amt l1 l2 hm il).final_months
      ∧ ((B:ℚ) * prodRatios l1 * (1 + sumAdjust l2) < 1 →
          (calculate_layered_sentence_with_constraints B ct amt l1 l2 hm il).final_months = 1
          ∧ TraceStep.clampBelowOne ((B:ℚ) * prodRatios l1 * (1 + sumAdjust l2))
              ∈ (calculate_layered_sentence_with_constraints B ct amt l1 l2 hm il).steps) := by
  intro B ct amt l1 l2 hm il
  constructor
  · by_cases h : (B:ℚ) * prodRatios l1 * (1 + sumAdjust l2) < 1
    · rw [(constrained_final_of_lt B ct amt l1 l2 hm il h).1]
    · rw [constrained_final_of_ge B ct amt l1 l2 hm il (not_lt.mp h)]
      exact round2_ge_one (not_lt.mp h)
  · exact constrained_final_of_lt B ct amt l1 l2 hm il

/-- C2 witness: the floor invariant at base 0 with no factors (raw value 0). -/
theorem constrained_floor_witness :
    1 ≤ (calculate_layered_sentence_with_constraints 0 "盗窃罪" 0 [] [] false none).final_months
    ∧ ((0:ℚ) * prodRatios [] * (1 + sumAdjust []) < 1
        ∧ (calculate_layered_sentence_with_constraints 0 "盗窃罪" 0 [] [] false none).final_months = 1
        ∧ TraceStep.clampBelowOne ((0:ℚ) * prodRatios [] * (1 + sumAdjust []))
            ∈ (calculate_layered_sentence_with_constraints 0 "盗窃罪" 0 [] [] false none).steps) :=
  ⟨(constrained_floor_invariant 0 "盗窃罪" 0 [] [] false none).1,
   by norm_num [prodRatios, sumAdjust, List.foldl],
   (constrained_floor_invariant 0 "盗窃罪" 0 [] [] false none).2
     (by norm_num [prodRatios, sumAdjust, List.foldl])⟩

/-- C2 counterexample: the 1111/1112 engine has no floor — base 1 with the
single Tier-1 factor 未成年人 (ratio 0.5) yields final_months = 0.5 < 1. -/
theorem layered_no_floor_cex :
    (calculate_layered_sentence 1 [⟨"未成年人", 1/2⟩] []).final_months = 1/2
    ∧ ¬ (1 ≤ (calculate_layered_sentence 1 [⟨"未成年人", 1/2⟩] []).final_months) := by
  have h : (calculate_layered_sentence 1 [⟨"未成年人", 1/2⟩] []).final_months = 1/2 := by
    rw [layered_final_months]
    norm_num [prodRatios, sumAdjust, List.foldl, round2, roundHalfEven]
  exact ⟨h, by rw [h]; norm_num⟩

theorem pyTrunc_intCast (n : ℤ) : pyTrunc ((n : ℚ)) = n := by
  unfold pyTrunc
  split
  · exact Int.floor_intCast n
  · exact Int.ceil_intCast n

theorem pyTrunc_eq_floor {q : ℚ} (h : 0 ≤ q) : pyTrunc q = ⌊q⌋ := if_pos h

theorem pyTrunc_nonneg {q : ℚ} (h : 0 ≤ q) : 0 ≤ pyTrunc q := by
  rw [pyTrunc_eq_floor h]
  exact Int.floor_nonneg.mpr h

/-- C3 (code_bug): in `src/1111/cal.py` the guards `amount and amount < …`
are falsy at amount 0, so a zero amount falls into the final else branch
(120 months) while amount 1 gets the minimum bracket (6 months) — the base
sentence is not non-decreasing in the amount. -/
theorem base1111cal_nonmonotone_at_zero :
    (0:ℚ) ≤ 1
    ∧ base1111cal "盗窃罪" (some 0) none = 120
    ∧ base1111cal "盗窃罪" (some 1) none = 6
    ∧ ¬ (base1111cal "盗窃罪" (some 0) none ≤ base1111cal "盗窃罪" (some 1) none) := by
  refine ⟨by norm_num, by decide, by decide, by decide⟩

/-- C4 (corrected): for every jurisdiction and every theft amount at or
above the especially-huge threshold, the amount-based computation is the
120-month floor plus one month per 50000 of excess, capped at 180 by a
`min` clamp; but the occurrence-count surcharge (one month per two thefts
beyond three) is added after that `min`, so the returned total is the capped
bracket value plus the uncapped surcharge and can exceed 180 (see the
counterexample). -/
theorem especially_huge_bracket_cap :
    ∀ (region : String) (a : ℚ),
      ((regionalEntry1124 region).theft.especiallyHuge : ℚ) ≤ a →
      (base1124 "盗窃罪" (some a) none region none
          = min (120 + pyTrunc ((a - ((regionalEntry1124 region).theft.especiallyHuge : ℚ)) / 50000)) 180
        ∧ 120 ≤ base1124 "盗窃罪" (some a) none region none
        ∧ base1124 "盗窃罪" (some a) none region none ≤ 180)
      ∧ (∀ c : ℤ, 3 < c →
          base1124 "盗窃罪" (some a) none region (some c)
            = min (120 + pyTrunc ((a - ((regionalEntry1124 region).theft.especiallyHuge : ℚ)) / 50000)) 180
              + pyTrunc (((c:ℚ) - 3) / 2)) := by
  intro region a ha
  obtain ⟨⟨hl0, hlh, hhe⟩, -⟩ := entry1124_ordered region
  have hcast1 : ((regionalEntry1124 region).theft.large : ℚ)
      < ((regionalEntry1124 region).theft.especiallyHuge : ℚ) := by
    exact_mod_cast lt_trans hlh hhe
  have hcast2 : ((regionalEntry1124 region).theft.huge : ℚ)
      < ((regionalEntry1124 region).theft.especiallyHuge : ℚ) := by
    exact_mod_cast hhe
  have h1 : ¬ (a < ((regionalEntry1124 region).theft.large : ℚ)) := by
    push_neg
    linarith
  have h2 : ¬ (a < ((regionalEntry1124 region).theft.huge : ℚ)) := by
    push_neg
    linarith
  have h3 : ¬ (a < ((regionalEntry1124 region).theft.especiallyHuge : ℚ)) := by
    push_neg
    linarith
  have hk : 0 ≤ pyTrunc ((a - ((regionalEntry1124 region).theft.especiallyHuge : ℚ)) / 50000) := by
    apply pyTrunc_nonneg
    apply div_nonneg _ (by norm_num)
    linarith
  have hbranch :
      (if a < ((regionalEntry1124 region).theft.large : ℚ) then (6:ℤ)
       else if a < ((regionalEntry1124 region).theft.huge : ℚ) then
         min (6 + pyTrunc ((a - ((regionalEntry1124 region).theft.large : ℚ)) / 2000) * 1) 36
       else if a < ((regionalEntry1124 region).theft.especiallyHuge : ℚ) then
         min (pyTrunc ((36 : ℚ) + (pyTrunc ((a - ((regionalEntry1124 region).theft.huge : ℚ)) / 3000) : ℚ) * (3/2))) 72
       else
         min (pyTrunc ((120 : ℚ) + (pyTrunc ((a - ((regionalEntry1124 region).theft.especiallyHuge : ℚ)) / 50000) : ℚ) * 1)) 180)
      = min (120 + pyTrunc ((a - ((regionalEntry1124 region).theft.especiallyHuge : ℚ)) / 50000)) 180 := by
    rw [if_neg h1, if_neg h2, if_neg h3]
    have heq : (120 : ℚ) + (pyTrunc ((a - ((regionalEntry1124 region).theft.especiallyHuge : ℚ)) / 50000) : ℚ) * 1
        = (((120 + pyTrunc ((a - ((regionalEntry1124 region).theft.especiallyHuge : ℚ)) / 50000)) : ℤ) : ℚ) := by
      push_cast
      ring
    rw [heq, pyTrunc_intCast]
  constructor
  · have hval : base1124 "盗窃罪" (some a) none region none
        = min (120 + pyTrunc ((a - ((regionalEntry1124 region).theft.especiallyHuge : ℚ)) / 50000)) 180 := by
      unfold base1124
      simp only [beq_self_eq_true, if_true]
      exact hbranch
    refine ⟨hval, ?_, ?_⟩
    · rw [hval]
      exact le_min (by omega) (by norm_num)
    · rw [hval]
      exact min_le_right _ _
  · intro c hc
    have hval : base1124 "盗窃罪" (some a) none region (some c)
        = (if 3 < c then
            (min (120 + pyTrunc ((a - ((regionalEntry1124 region).theft.especiallyHuge : ℚ)) / 50000)) 180)
              + pyTrunc (((c:ℚ) - 3) / 2)
          else min (120 + pyTrunc ((a - ((regionalEntry1124 region).theft.especiallyHuge : ℚ)) / 50000)) 180) := by
      unfold base1124
      simp only [beq_self_eq_true, if_true]
      rw [hbranch]
    rw [hval, if_pos hc]

/-- C4 witness: the cap statement applied at the default jurisdiction,
amount 3 300 000 and 13 thefts. -/
theorem especially_huge_bracket_cap_witness :
    ((regionalEntry1124 "default").theft.especiallyHuge : ℚ) ≤ 3300000
    ∧ base1124 "盗窃罪" (some 3300000) none "default" none
        = min (120 + pyTrunc (((3300000:ℚ) - ((regionalEntry1124 "default").theft.especiallyHuge : ℚ)) / 50000)) 180
    ∧ (3:ℤ) < 13
    ∧ base1124 "盗窃罪" (some 3300000) none "default" (some 13)
        = min (120 + pyTrunc (((3300000:ℚ) - ((regionalEntry1124 "default").theft.especiallyHuge : ℚ)) / 50000)) 180
          + pyTrunc (((13:ℚ) - 3) / 2) :=
  ⟨by decide,
   (especially_huge_bracket_cap "default" 3300000 (by decide)).1.1,
   by decide,
   (especially_huge_bracket_cap "default" 3300000 (by decide)).2 13 (by decide)⟩

/-- C4 counterexample: amount 3 300 000 (capped at 180) with 13 thefts
yields 185 months, above the 180-month statutory ceiling. -/
theorem theft_count_exceeds_ceiling_cex :
    base1124 "盗窃罪" (some 3300000) none "default" (some 13) = 185
    ∧ ¬ (base1124 "盗窃罪" (some 3300000) none "default" (some 13) ≤ 180) := by
  have e1 : regionalEntry1124 "default" = DEFAULT_STD := by decide
  have h : base1124 "盗窃罪" (some 3300000) none "default" (some 13) = 185 := by
    norm_num [base1124, e1, DEFAULT_STD, pyTrunc]
  exact ⟨h, by rw [h]; norm_num⟩

theorem fdiv_two_cast {w : ℤ} (h : 2 ∣ w) :
    ((Int.fdiv w 2 : ℤ) : ℚ) = (w:ℚ)/2 := by
  obtain ⟨m, rfl⟩ := h
  rw [Int.mul_fdiv_cancel_left m (by norm_num)]
  push_cast
  ring

/-- C5 (corrected): the 1111/1112 `months_to_range` floor-halves the width
(`width // 2`), which agrees with the claimed `round(C ± W/2)` formula for
every even width — in particular `months_to_range(48, 4) = [46, 50]` — but
not for odd widths; the 1124 variant ignores the supplied width entirely
(see the counterexample). -/
theorem months_to_range_formula :
    (∀ (c : ℚ) (w : ℤ), 2 ∣ w →
      months_to_range c w
        = [max 1 (roundHalfEven (c - (w:ℚ)/2)), max 1 (roundHalfEven (c + (w:ℚ)/2))])
    ∧ months_to_range 48 4 = [46, 50]
    ∧ (∀ (c : ℚ) (w w' : ℤ), months_to_range_1124 c w = months_to_range_1124 c w') := by
  refine ⟨?_, ?_, fun c w w' => rfl⟩
  · intro c w h
    unfold months_to_range
    dsimp only
    rw [fdiv_two_cast h]
  · have hf : Int.fdiv 4 2 = 2 := rfl
    norm_num [months_to_range, hf, roundHalfEven]

/-- C5 witness: the even-width formula applied at center 48, width 4. -/
theorem months_to_range_formula_witness :
    (2:ℤ) ∣ 4
    ∧ months_to_range 48 4
        = [max 1 (roundHalfEven ((48:ℚ) - (4:ℤ)/2)), max 1 (roundHalfEven ((48:ℚ) + (4:ℤ)/2))] :=
  ⟨by decide, months_to_range_formula.1 48 4 (by decide)⟩

/-- C5 counterexample: at width 1 the 1111 variant returns [1, 1] where the
claimed formula gives [1, 2]; and the 1124 variant maps the claim's own
example (48, width 4) to [44, 52], not [46, 50]. -/
theorem months_to_range_cex :
    months_to_range 1 1 = [1, 1]
    ∧ [max 1 (roundHalfEven ((1:ℚ) - 1/2)), max 1 (roundHalfEven ((1:ℚ) + 1/2))] = [1, 2]
    ∧ months_to_range 1 1
        ≠ [max 1 (roundHalfEven ((1:ℚ) - 1/2)), max 1 (roundHalfEven ((1:ℚ) + 1/2))]
    ∧ months_to_range_1124 48 4 = [44, 52]
    ∧ months_to_range_1124 48 4 ≠ [46, 50] := by
  have hf : Int.fdiv 1 2 = 0 := rfl
  have h1 : months_to_range 1 1 = [1, 1] := by
    norm_num [months_to_range, hf, roundHalfEven]
  have h2 : [max 1 (roundHalfEven ((1:ℚ) - 1/2)), max 1 (roundHalfEven ((1:ℚ) + 1/2))]
      = [1, 2] := by
    norm_num [roundHalfEven]
  have h3 : months_to_range_1124 48 4 = [44, 52] := by
    norm_num [months_to_range_1124, roundHalfEven]
  refine ⟨h1, h2, by rw [h1, h2]; decide, h3, by rw [h3]; decide⟩

/-- C6 (corrected): whenever `min_legal ≤ max_legal`, the validator is the
pure clamp `max(min_legal, min(months, max_legal))` and is idempotent, and
`validate(45, 6, 36) = 36`; with crossed bounds the cascade and the clamp
formula disagree (see the counterexample). -/
theorem validate_clamp_idempotent :
    (∀ (months min_legal max_legal : ℤ), min_legal ≤ max_legal →
      validate_legal_range months min_legal max_legal
          = max min_legal (min months max_legal)
      ∧ validate_legal_range
          (validate_legal_range months min_legal max_legal) min_legal max_legal
          = validate_legal_range months min_legal max_legal)
    ∧ validate_legal_range 45 6 36 = 36 := by
  refine ⟨?_, by decide⟩
  intro m lo hi h
  constructor
  · unfold validate_legal_range
    split_ifs <;> omega
  · unfold validate_legal_range
    split_ifs <;> omega

/-- C6 witness: the clamp equality and idempotence applied at (45, 6, 36). -/
theorem validate_clamp_witness :
    (6:ℤ) ≤ 36
    ∧ validate_legal_range 45 6 36 = max 6 (min 45 36)
    ∧ validate_legal_range (validate_legal_range 45 6 36) 6 36
        = validate_legal_range 45 6 36 :=
  ⟨by decide, (validate_clamp_idempotent.1 45 6 36 (by decide)).1,
   (validate_clamp_idempotent.1 45 6 36 (by decide)).2⟩

/-- C6 counterexample: with crossed bounds (40, 30) the cascade returns the
ceiling 30 where the clamp formula gives 40, and idempotence fails. -/
theorem validate_crossed_bounds_cex :
    validate_legal_range 50 40 30 = 30
    ∧ max 40 (min 50 30) = 40
    ∧ validate_legal_range 50 40 30 ≠ max 40 (min 50 30)
    ∧ validate_legal_range (validate_legal_range 50 40 30) 40 30 = 40
    ∧ validate_legal_range (validate_legal_range 50 40 30) 40 30
        ≠ validate_legal_range 50 40 30 := by decide

/-- C7 (corrected): the 1124 lookup is exactly the claimed order (exact →
synonym → default) and an unknown key resolves to the default entry without
failing; the 1111 `get_regional_standard` inserts a province-substring match
between the exact and synonym steps (see the counterexample), but a key that
matches nothing still resolves to the default entry. -/
theorem resolution_order :
    (∀ region, regionalEntry1124 region
        = claimResolve REGIONAL_STANDARDS_1124 CITIES_TO_PROVINCES region)
    ∧ (∀ region, alookup REGIONAL_STANDARDS_1124 region = none →
        alookup CITIES_TO_PROVINCES region = none →
        regionalEntry1124 region = DEFAULT_STD)
    ∧ (∀ region crime_type,
        alookup REGIONAL_STANDARDS_1111 region = none →
        REGIONAL_STANDARDS_1111.find?
          (fun p => pySubstr p.1 region && !(p.1 == "default")) = none →
        alookup CITIES_TO_PROVINCES region = none →
        get_regional_standard region crime_type
          = DEFAULT_STD.get (crimeKey crime_type)) := by
  refine ⟨fun region => rfl, ?_, ?_⟩
  · intro region h1 h2
    unfold regionalEntry1124
    rw [h1, h2]
  · intro region crime_type h1 h2 h3
    unfold get_regional_standard regionalEntry1111
    rw [h1, h2, h3]

/-- C7 witness: the fallback statements applied at the unknown key 未知地区. -/
theorem resolution_order_witness :
    alookup REGIONAL_STANDARDS_1124 "未知地区" = none
    ∧ alookup CITIES_TO_PROVINCES "未知地区" = none
    ∧ regionalEntry1124 "未知地区" = DEFAULT_STD
    ∧ get_regional_standard "未知地区" "盗窃罪" = DEFAULT_STD.get (crimeKey "盗窃罪") :=
  ⟨by decide, by decide,
   resolution_order.2.1 "未知地区" (by decide) (by decide),
   resolution_order.2.2 "未知地区" "盗窃罪" (by decide) (by decide) (by decide)⟩

/-- C7 counterexample: the suffixed key 北京市 is not an exact table key and
not a city synonym, so the claimed order would resolve it to the default
entry, but `get_regional_standard`'s substring step resolves it to the
北京 entry. -/
theorem resolution_order_cex :
    regionalEntry1111 "北京市" = ⟨⟨2000, 60000, 400000⟩, ⟨5000, 100000, 500000⟩⟩
    ∧ claimResolve REGIONAL_STANDARDS_1111 CITIES_TO_PROVINCES "北京市" = DEFAULT_STD
    ∧ regionalEntry1111 "北京市"
        ≠ claimResolve REGIONAL_STANDARDS_1111 CITIES_TO_PROVINCES "北京市" := by
  decide

/-- C8 (corrected): zero and negative amounts fall below the lowest bracket
in the 1124 variant (6 months, like any amount under `large`), and negative
amounts do in the 1111 simple variant; but a missing (None) amount yields
the neutral 12-month default in 1124, and in the 1111 simple variant a
missing or zero amount is falsy and falls through to the harshest
120-month else branch. -/
theorem permissive_amount_handling :
    (∀ a : ℚ, a ≤ 0 →
      base1124 "盗窃罪" (some a) none "default" none = 6
      ∧ base1124 "诈骗罪" (some a) none "default" none = 6)
    ∧ base1124 "盗窃罪" none none "default" none = 12
    ∧ base1124 "诈骗罪" none none "default" none = 12
    ∧ (∀ a : ℚ, a < 0 →
      base1111cal "盗窃罪" (some a) none = 6
      ∧ base1111cal "诈骗罪" (some a) none = 0)
    ∧ base1111cal "盗窃罪" (some 0) none = 120
    ∧ base1111cal "诈骗罪" (some 0) none = 120
    ∧ base1111cal "盗窃罪" none none = 120
    ∧ base1111cal "诈骗罪" none none = 120 := by
  have e1 : regionalEntry1124 "default" = DEFAULT_STD := by decide
  refine ⟨?_, by decide, by decide, ?_, by decide, by decide, by decide, by decide⟩
  · intro a ha
    constructor
    · unfold base1124
      simp only [beq_self_eq_true, if_true, e1]
      dsimp only [DEFAULT_STD]
      rw [if_pos (by push_cast; linarith : a < ((1000:ℤ):ℚ))]
    · unfold base1124
      have t1 : ("诈骗罪" == "盗窃罪") = false := by decide
      simp only [t1, Bool.false_eq_true, if_false, beq_self_eq_true, if_true, e1]
      dsimp only [DEFAULT_STD]
      rw [if_pos (by push_cast; linarith : a < ((3000:ℤ):ℚ))]
  · intro a ha
    have hne : ¬ (a = 0) := by linarith
    constructor
    · unfold base1111cal
      simp only [beq_self_eq_true, if_true, truthyLt]
      rw [if_pos (by
        simp only [Bool.and_eq_true, Bool.not_eq_true', beq_eq_false_iff_ne, ne_eq,
          decide_eq_true_eq]
        exact ⟨hne, by linarith⟩)]
    · unfold base1111cal
      have t1 : ("诈骗罪" == "盗窃罪") = false := by decide
      simp only [t1, Bool.false_eq_true, if_false, beq_self_eq_true, if_true, truthyLt]
      rw [if_pos (by
        simp only [Bool.and_eq_true, Bool.not_eq_true', beq_eq_false_iff_ne, ne_eq,
          decide_eq_true_eq]
        exact ⟨hne, by linarith⟩)]

/-- C8 witness: the zero/negative clauses applied at amount −500 and the
below-bracket clause at 0. -/
theorem permissive_amount_witness :
    ((-500:ℚ) ≤ 0
      ∧ base1124 "盗窃罪" (some (-500)) none "default" none = 6
      ∧ base1124 "诈骗罪" (some (-500)) none "default" none = 6)
    ∧ ((-500:ℚ) < 0
      ∧ base1111cal "盗窃罪" (some (-500)) none = 6
      ∧ base1111cal "诈骗罪" (some (-500)) none = 0)
    ∧ ((0:ℚ) ≤ 0 ∧ base1124 "盗窃罪" (some 0) none "default" none = 6) :=
  ⟨⟨by norm_num, (permissive_amount_handling.1 (-500) (by norm_num)).1,
    (permissive_amount_handling.1 (-500) (by norm_num)).2⟩,
   ⟨by norm_num, (permissive_amount_handling.2.2.2.1 (-500) (by norm_num)).1,
    (permissive_amount_handling.2.2.2.1 (-500) (by norm_num)).2⟩,
   ⟨by norm_num, (permissive_amount_handling.1 0 (by norm_num)).1⟩⟩

/-- C8 counterexample: in the 1124 variant a missing amount yields 12
months, not the 6-month below-bracket minimum that amounts under the
`large` threshold (such as 500) receive; and in the 1111 simple variant a
zero amount yields 120 months. -/
theorem missing_amount_cex :
    base1124 "盗窃罪" none none "default" none = 12
    ∧ base1124 "盗窃罪" (some 500) none "default" none = 6
    ∧ base1124 "盗窃罪" none none "default" none
        ≠ base1124 "盗窃罪" (some 500) none "default" none
    ∧ base1111cal "盗窃罪" (some 0) none = 120 := by
  decide

/-- C9 (confirmed): factor matching scans the coefficient table in stored
order and returns the first entry whose canonical phrase is contained in the
description; when nothing matches it returns the neutral default (layer-1
ratio 1.0, layer-2 adjustment 0) with a no-match reason, and it is total. -/
theorem factor_match_first_and_default :
    (∀ desc, (∀ p ∈ LAYER1_FACTORS, pySubstr p.1 desc = false) →
      match_layer1_factor desc = ⟨"一般情节", 1, .noMatch⟩)
    ∧ (∀ desc pre e post, LAYER1_FACTORS = pre ++ e :: post →
      (∀ p ∈ pre, pySubstr p.1 desc = false) → pySubstr e.1 desc = true →
      match_layer1_factor desc = ⟨e.1, e.2, .matchedKey e.1⟩)
    ∧ (∀ desc, (∀ p ∈ LAYER2_FACTORS, pySubstr p.1 desc = false) →
      match_layer2_factor desc = ⟨"一般情节", 0, .noMatch⟩)
    ∧ (∀ desc pre e post, LAYER2_FACTORS = pre ++ e :: post →
      (∀ p ∈ pre, pySubstr p.1 desc = false) → pySubstr e.1 desc = true →
      match_layer2_factor desc = ⟨e.1, e.2, .matchedKey e.1⟩) := by
  refine ⟨?_, ?_, ?_, ?_⟩
  · intro desc h
    unfold match_layer1_factor
    rw [List.find?_eq_none.mpr (fun x hx => by simp [h x hx])]
  · intro desc pre e post htab hpre he
    unfold match_layer1_factor
    rw [htab, find?_first _ pre e post hpre he]
  · intro desc h
    unfold match_layer2_factor
    rw [List.find?_eq_none.mpr (fun x hx => by simp [h x hx])]
  · intro desc pre e post htab hpre he
    unfold match_layer2_factor
    rw [htab, find?_first _ pre e post hpre he]

/-- C9 witness: a description matching nothing takes the neutral default,
and descriptions containing the fourth layer-1 phrase and the third layer-2
phrase take exactly those entries. -/
theorem factor_match_witness :
    match_layer1_factor "本案无特殊情节" = ⟨"一般情节", 1, .noMatch⟩
    ∧ match_layer1_factor "被告人系从犯（一般）"
        = ⟨"从犯（一般）", 7/10, .matchedKey "从犯（一般）"⟩
    ∧ match_layer2_factor "本案无特殊情节" = ⟨"一般情节", 0, .noMatch⟩
    ∧ match_layer2_factor "自首（抓获后）如实供述"
        = ⟨"自首（抓获后）", -25, .matchedKey "自首（抓获后）"⟩ :=
  ⟨factor_match_first_and_default.1 "本案无特殊情节" (by decide),
   factor_match_first_and_default.2.1 "被告人系从犯（一般）"
     [("未成年人（16-18岁）", 7/10), ("未成年人（14-16岁）", 1/2), ("从犯（作用较小）", 3/5)]
     ("从犯（一般）", 7/10)
     [("胁从犯", 2/5), ("犯罪预备", 2/5), ("犯罪中止（自动有效）", 3/10),
      ("犯罪中止（一般）", 2/5), ("犯罪未遂（意志以外）", 7/10),
      ("犯罪未遂（能力不足）", 3/5), ("限制刑事责任能力", 3/5),
      ("又聋又哑/盲人", 7/10), ("防卫过当", 1/2)]
     rfl (by decide) (by decide),
   factor_match_first_and_default.2.2.1 "本案无特殊情节" (by decide),
   factor_match_first_and_default.2.2.2 "自首（抓获后）如实供述"
     [("累犯", 25), ("自首（主动投案）", -35)]
     ("自首（抓获后）", -25)
     [("坦白", -15), ("认罪认罚（具结书）", -20), ("认罪认罚（口头）", -15),
      ("一般立功", -15), ("重大立功", -30), ("退赃退赔（全部）", -25),
      ("退赃退赔（部分）", -15), ("取得谅解", -20), ("刑事和解", -35),
      ("有前科（同类）", 20), ("有前科（其他）", 15), ("多次犯罪（3次+）", 25),
      ("多次犯罪（2次）", 15), ("造成严重后果", 35)]
     rfl (by decide) (by decide)⟩

theorem level_small {a : ℚ} {s : AmountStd} (hs : s.ordered)
    (h : a < (s.large : ℚ)) : determine_amount_level a s = .small := by
  obtain ⟨h0, hlh, hhe⟩ := hs
  have c1 : (s.large : ℚ) ≤ (s.huge : ℚ) := by exact_mod_cast le_of_lt hlh
  have c2 : (s.huge : ℚ) ≤ (s.especiallyHuge : ℚ) := by exact_mod_cast le_of_lt hhe
  unfold determine_amount_level
  rw [if_neg (by push_neg; linarith), if_neg (by push_neg; linarith),
     if_neg (by push_neg; linarith)]

/-- C10 (confirmed): in the jurisdiction-aware 1111 variant, for theft and
fraud with an amount below the region's `large` threshold, or with no
amount at all, a supplied injury level overrides the 12-month default:
轻伤 gives 18 months and 重伤 gives 60 months. -/
theorem injury_override_below_bracket :
    ∀ (region : String),
      (∀ a : ℚ, a < ((get_regional_standard region "盗窃罪").large : ℚ) →
        base1111sc "盗窃罪" (some a) (some "轻伤") region = 18
        ∧ base1111sc "盗窃罪" (some a) (some "重伤") region = 60)
      ∧ base1111sc "盗窃罪" none (some "轻伤") region = 18
      ∧ base1111sc "盗窃罪" none (some "重伤") region = 60
      ∧ (∀ a : ℚ, a < ((get_regional_standard region "诈骗罪").large : ℚ) →
        base1111sc "诈骗罪" (some a) (some "轻伤") region = 18
        ∧ base1111sc "诈骗罪" (some a) (some "重伤") region = 60)
      ∧ base1111sc "诈骗罪" none (some "轻伤") region = 18
      ∧ base1111sc "诈骗罪" none (some "重伤") region = 60 := by
  intro region
  have hordT := get_regional_standard_ordered region "盗窃罪"
  have hordF := get_regional_standard_ordered region "诈骗罪"
  refine ⟨?_, ?_, ?_, ?_, ?_, ?_⟩
  · intro a ha
    have hlevel := level_small hordT ha
    constructor <;>
      (unfold base1111sc
       dsimp only
       simp only [show pySubstr "盗窃" "盗窃罪" = true from rfl, Bool.true_or,
         if_true, hlevel]
       decide)
  · unfold base1111sc
    dsimp only
    decide
  · unfold base1111sc
    dsimp only
    decide
  · intro a ha
    have hlevel := level_small hordF ha
    constructor <;>
      (unfold base1111sc
       dsimp only
       simp only [show pySubstr "诈骗" "诈骗罪" = true from rfl, Bool.true_or,
         if_true, hlevel]
       decide)
  · unfold base1111sc
    dsimp only
    decide
  · unfold base1111sc
    dsimp only
    decide

/-- C10 witness: the override applied at the default jurisdiction with
amount 500, below the default theft threshold 1000 and fraud threshold 3000. -/
theorem injury_override_witness :
    ((500:ℚ) < ((get_regional_standard "default" "盗窃罪").large : ℚ)
      ∧ base1111sc "盗窃罪" (some 500) (some "轻伤") "default" = 18
      ∧ base1111sc "盗窃罪" (some 500) (some "重伤") "default" = 60)
    ∧ ((500:ℚ) < ((get_regional_standard "default" "诈骗罪").large : ℚ)
      ∧ base1111sc "诈骗罪" (some 500) (some "轻伤") "default" = 18
      ∧ base1111sc "诈骗罪" (some 500) (some "重伤") "default" = 60) :=
  ⟨⟨by decide, ((injury_override_below_bracket "default").1 500 (by decide)).1,
    ((injury_override_below_bracket "default").1 500 (by decide)).2⟩,
   ⟨by decide, ((injury_override_below_bracket "default").2.2.2.1 500 (by decide)).1,
    ((injury_override_below_bracket "default").2.2.2.1 500 (by decide)).2⟩⟩

theorem pyTrunc_mono_nonneg {q1 q2 : ℚ} (h0 : 0 ≤ q1) (h : q1 ≤ q2) :
    pyTrunc q1 ≤ pyTrunc q2 := by
  rw [pyTrunc_eq_floor h0, pyTrunc_eq_floor (le_trans h0 h)]
  exact Int.floor_le_floor h

theorem base1124_theft_amount_eq (region : String) (a : ℚ) :
    base1124 "盗窃罪" (some a) none region none
      = (if a < ((regionalEntry1124 region).theft.large : ℚ) then 6
         else if a < ((regionalEntry1124 region).theft.huge : ℚ) then
           min (6 + pyTrunc ((a - ((regionalEntry1124 region).theft.large : ℚ)) / 2000) * 1) 36
         else if a < ((regionalEntry1124 region).theft.especiallyHuge : ℚ) then
           min (pyTrunc ((36 : ℚ)
             + (pyTrunc ((a - ((regionalEntry1124 region).theft.huge : ℚ)) / 3000) : ℚ) * (3/2))) 72
         else
           min (pyTrunc ((120 : ℚ)
             + (pyTrunc ((a - ((regionalEntry1124 region).theft.especiallyHuge : ℚ)) / 50000) : ℚ) * 1)) 180) := by
  unfold base1124
  simp only [beq_self_eq_true, if_true]

theorem base1124_theft_count_eq (region : String) (a : ℚ) (c : ℤ) :
    base1124 "盗窃罪" (some a) none region (some c)
      = base1124 "盗窃罪" (some a) none region none
        + (if 3 < c then pyTrunc (((c:ℚ) - 3) / 2) else 0) := by
  unfold base1124
  simp only [beq_self_eq_true, if_true]
  split_ifs <;> omega

/-- The 1124 theft base sentence is non-decreasing in the amount (for a
fixed jurisdiction and occurrence count) — the property the 1111 simple
variant breaks at amount 0. -/
theorem base1124_theft_mono_in_amount (region : String) :
    ∀ a1 a2 : ℚ, a1 ≤ a2 →
      base1124 "盗窃罪" (some a1) none region none
        ≤ base1124 "盗窃罪" (some a2) none region none := by
  intro a1 a2 h12
  obtain ⟨⟨hl0, hlh, hhe⟩, -⟩ := entry1124_ordered region
  have cLH : (((regionalEntry1124 region).theft.large : ℤ) : ℚ)
      ≤ (((regionalEntry1124 region).theft.huge : ℤ) : ℚ) := by
    exact_mod_cast le_of_lt hlh
  have cHE : (((regionalEntry1124 region).theft.huge : ℤ) : ℚ)
      ≤ (((regionalEntry1124 region).theft.especiallyHuge : ℤ) : ℚ) := by
    exact_mod_cast le_of_lt hhe
  rw [base1124_theft_amount_eq region a1, base1124_theft_amount_eq region a2]
  have hb2 : ∀ a : ℚ, ((regionalEntry1124 region).theft.large : ℚ) ≤ a →
      (6:ℤ) ≤ min (6 + pyTrunc ((a - ((regionalEntry1124 region).theft.large : ℚ)) / 2000) * 1) 36
      ∧ min (6 + pyTrunc ((a - ((regionalEntry1124 region).theft.large : ℚ)) / 2000) * 1) 36 ≤ 36 := by
    intro a ha
    have hk : 0 ≤ pyTrunc ((a - ((regionalEntry1124 region).theft.large : ℚ)) / 2000) :=
      pyTrunc_nonneg (div_nonneg (by linarith) (by norm_num))
    exact ⟨le_min (by omega) (by norm_num), min_le_right _ _⟩
  have hb3 : ∀ a : ℚ, ((regionalEntry1124 region).theft.huge : ℚ) ≤ a →
      (36:ℤ) ≤ min (pyTrunc ((36 : ℚ)
          + (pyTrunc ((a - ((regionalEntry1124 region).theft.huge : ℚ)) / 3000) : ℚ) * (3/2))) 72
      ∧ min (pyTrunc ((36 : ℚ)
          + (pyTrunc ((a - ((regionalEntry1124 region).theft.huge : ℚ)) / 3000) : ℚ) * (3/2))) 72 ≤ 72 := by
    intro a ha
    have hk : 0 ≤ pyTrunc ((a - ((regionalEntry1124 region).theft.huge : ℚ)) / 3000) :=
      pyTrunc_nonneg (div_nonneg (by linarith) (by norm_num))
    have hkq : (0:ℚ) ≤ (pyTrunc ((a - ((regionalEntry1124 region).theft.huge : ℚ)) / 3000) : ℚ) := by
      exact_mod_cast hk
    have harg : (36:ℚ) ≤ (36 : ℚ)
        + (pyTrunc ((a - ((regionalEntry1124 region).theft.huge : ℚ)) / 3000) : ℚ) * (3/2) := by
      nlinarith
    have hfl : (36:ℤ) ≤ pyTrunc ((36 : ℚ)
        + (pyTrunc ((a - ((regionalEntry1124 region).theft.huge : ℚ)) / 3000) : ℚ) * (3/2)) := by
      rw [pyTrunc_eq_floor (by linarith)]
      exact Int.le_floor.mpr (by exact_mod_cast harg)
    exact ⟨le_min hfl (by norm_num), min_le_right _ _⟩
  have hb4 : ∀ a : ℚ, ((regionalEntry1124 region).theft.especiallyHuge : ℚ) ≤ a →
      (120:ℤ) ≤ min (pyTrunc ((120 : ℚ)
          + (pyTrunc ((a - ((regionalEntry1124 region).theft.especiallyHuge : ℚ)) / 50000) : ℚ) * 1)) 180 := by
    intro a ha
    have hk : 0 ≤ pyTrunc ((a - ((regionalEntry1124 region).theft.especiallyHuge : ℚ)) / 50000) :=
      pyTrunc_nonneg (div_nonneg (by linarith) (by norm_num))
    have hkq : (0:ℚ) ≤ (pyTrunc ((a - ((regionalEntry1124 region).theft.especiallyHuge : ℚ)) / 50000) : ℚ) := by
      exact_mod_cast hk
    have hfl : (120:ℤ) ≤ pyTrunc ((120 : ℚ)
        + (pyTrunc ((a - ((regionalEntry1124 region).theft.especiallyHuge : ℚ)) / 50000) : ℚ) * 1) := by
      rw [pyTrunc_eq_floor (by linarith)]
      exact Int.le_floor.mpr (by push_cast; linarith)
    exact le_min hfl (by norm_num)
  split_ifs with h1 h2 h3 h4 h5 h6 h7 h8 h9 h10 h11 h12a
  all_goals try rfl
  all_goals try (exfalso; linarith)
  all_goals try (
    first
    | exact (hb2 a2 (by linarith)).1
    | exact le_trans (hb2 a1 (by linarith)).2 (hb3 a2 (by linarith)).1
    | exact le_trans (hb3 a1 (by linarith)).2 (le_trans (by norm_num) (hb4 a2 (by linarith)))
    | exact le_trans (by norm_num : (6:ℤ) ≤ 36) (hb3 a2 (by linarith)).1
    | exact le_trans (by norm_num : (6:ℤ) ≤ 120) (hb4 a2 (by linarith))
    | exact le_trans (hb2 a1 (by linarith)).2 (le_trans (by norm_num) (hb4 a2 (by linarith))))
  -- remaining: the three same-bracket progressive cases
  · -- both in the large bracket
    have hm : pyTrunc ((a1 - ((regionalEntry1124 region).theft.large : ℚ)) / 2000)
        ≤ pyTrunc ((a2 - ((regionalEntry1124 region).theft.large : ℚ)) / 2000) := by
      apply pyTrunc_mono_nonneg (div_nonneg (by linarith) (by norm_num))
      apply div_le_div_of_nonneg_right _ (by norm_num)
      · linarith
    exact min_le_min (by omega) le_rfl
  · -- both in the huge bracket
    have hm : pyTrunc ((a1 - ((regionalEntry1124 region).theft.huge : ℚ)) / 3000)
        ≤ pyTrunc ((a2 - ((regionalEntry1124 region).theft.huge : ℚ)) / 3000) := by
      apply pyTrunc_mono_nonneg (div_nonneg (by linarith) (by norm_num))
      apply div_le_div_of_nonneg_right _ (by norm_num)
      · linarith
    have hmq : (pyTrunc ((a1 - ((regionalEntry1124 region).theft.huge : ℚ)) / 3000) : ℚ)
        ≤ (pyTrunc ((a2 - ((regionalEntry1124 region).theft.huge : ℚ)) / 3000) : ℚ) := by
      exact_mod_cast hm
    have hk1 : 0 ≤ pyTrunc ((a1 - ((regionalEntry1124 region).theft.huge : ℚ)) / 3000) :=
      pyTrunc_nonneg (div_nonneg (by linarith) (by norm_num))
    have hk1q : (0:ℚ) ≤ (pyTrunc ((a1 - ((regionalEntry1124 region).theft.huge : ℚ)) / 3000) : ℚ) := by
      exact_mod_cast hk1
    have hmt : pyTrunc ((36 : ℚ)
          + (pyTrunc ((a1 - ((regionalEntry1124 region).theft.huge : ℚ)) / 3000) : ℚ) * (3/2))
        ≤ pyTrunc ((36 : ℚ)
          + (pyTrunc ((a2 - ((regionalEntry1124 region).theft.huge : ℚ)) / 3000) : ℚ) * (3/2)) := by
      apply pyTrunc_mono_nonneg (by nlinarith)
      nlinarith
    exact min_le_min hmt le_rfl
  · -- both in the especially-huge bracket
    have hm : pyTrunc ((a1 - ((regionalEntry1124 region).theft.especiallyHuge : ℚ)) / 50000)
        ≤ pyTrunc ((a2 - ((regionalEntry1124 region).theft.especiallyHuge : ℚ)) / 50000) := by
      apply pyTrunc_mono_nonneg (div_nonneg (by linarith) (by norm_num))
      apply div_le_div_of_nonneg_right _ (by norm_num)
      · linarith
    have hmq : (pyTrunc ((a1 - ((regionalEntry1124 region).theft.especiallyHuge : ℚ)) / 50000) : ℚ)
        ≤ (pyTrunc ((a2 - ((regionalEntry1124 region).theft.especiallyHuge : ℚ)) / 50000) : ℚ) := by
      exact_mod_cast hm
    have hk1 : 0 ≤ pyTrunc ((a1 - ((regionalEntry1124 region).theft.especiallyHuge : ℚ)) / 50000) :=
      pyTrunc_nonneg (div_nonneg (by linarith) (by norm_num))
    have hk1q : (0:ℚ) ≤ (pyTrunc ((a1 - ((regionalEntry1124 region).theft.especiallyHuge : ℚ)) / 50000) : ℚ) := by
      exact_mod_cast hk1
    have hmt : pyTrunc ((120 : ℚ)
          + (pyTrunc ((a1 - ((regionalEntry1124 region).theft.especiallyHuge : ℚ)) / 50000) : ℚ) * 1)
        ≤ pyTrunc ((120 : ℚ)
          + (pyTrunc ((a2 - ((regionalEntry1124 region).theft.especiallyHuge : ℚ)) / 50000) : ℚ) * 1) := by
      apply pyTrunc_mono_nonneg (by nlinarith)
      nlinarith
    exact min_le_min hmt le_rfl

/-- Monotonicity in the amount also holds with a fixed theft count, since
the occurrence surcharge does not depend on the amount. -/
theorem base1124_theft_mono_with_count (region : String) (c : ℤ) :
    ∀ a1 a2 : ℚ, a1 ≤ a2 →
      base1124 "盗窃罪" (some a1) none region (some c)
        ≤ base1124 "盗窃罪" (some a2) none region (some c) := by
  intro a1 a2 h12
  rw [base1124_theft_count_eq, base1124_theft_count_eq]
  exact add_le_add_right (base1124_theft_mono_in_amount region a1 a2 h12) _
